import Mathlib

/-!
Shallow embedding of the `beebotte` Python client library
(`src/beebotte/__init__.py`) and proofs checking the natural-language
specification against it.

Modelling conventions:
* Strings and bytes: Python `str` is `String`; byte strings are `List Nat`
  with every element below 256.  `str.encode()` is `utf8Bytes`.
* Machine words inside the hash functions are `Nat` reduced modulo `2 ^ 32`.
* Decoded JSON values (`json.loads` results) are the inductive `Json`;
  numbers in this library are integers, so `Json.num` carries an `Int`.
* Impure inputs (the clock readings `time.time()` and
  `email.utils.formatdate()`) are passed in as explicit arguments.
* A Python function that can raise returns `Except PyErr _`; `PyErr`
  separates the exception classes the module defines and raises on purpose
  from unhandled built-in exceptions (crashes).
-/

/-- Decoded JSON values as returned by `json.loads`.  Every number that the
library's logic inspects is an integer, so numbers are modelled as `Int`. -/
inductive Json where
  | null : Json
  | bool (b : Bool) : Json
  | num (n : Int) : Json
  | str (s : String) : Json
  | arr (l : List Json) : Json
  | obj (l : List (String × Json)) : Json

/-- Built-in Python exceptions that the module never catches: raising one of
these is a crash of the library call. -/
inductive PyExc where
  | JSONDecodeError : PyExc
  | KeyError : PyExc
  | IndexError : PyExc
  | NameError : PyExc
  | TypeError : PyExc
  deriving DecidableEq

/-- The exception classes defined at the bottom of the module (source lines
472-506) and raised by `__processResponse__`.  Each carries the `message`
field extracted from the error body (the source interpolates it, together
with the status and code, into the exception text). -/
inductive BBTExc where
  | AuthenticationError (msg : Json) : BBTExc
  | ParameterError (msg : Json) : BBTExc
  | BadRequestError (msg : Json) : BBTExc
  | TypeError (msg : Json) : BBTExc
  | BadTypeError (msg : Json) : BBTExc
  | PayloadLimitError (msg : Json) : BBTExc
  | NotAllowedError (msg : Json) : BBTExc
  | InternalError (msg : Json) : BBTExc
  | NotFoundError (msg : Json) : BBTExc
  | AlreadyExistError (msg : Json) : BBTExc
  | UnexpectedError (msg : Json) : BBTExc

/-- Outcome of a raising Python computation: a deliberately raised module
exception, or an unhandled built-in exception (a crash). -/
inductive PyErr where
  | exc (e : BBTExc) : PyErr
  | builtin (e : PyExc) : PyErr

/-! ### Bytes and hashes (the parts of `hashlib`, `hmac` and `base64` the
module calls) -/

/-- UTF-8 encoding of one code point. -/
def utf8EncodeChar (c : Nat) : List Nat :=
  if c < 128 then [c]
  else if c < 2048 then [192 + c / 64, 128 + c % 64]
  else if c < 65536 then [224 + c / 4096, 128 + c / 64 % 64, 128 + c % 64]
  else [240 + c / 262144, 128 + c / 4096 % 64, 128 + c / 64 % 64, 128 + c % 64]

/-- `str.encode()`: the UTF-8 bytes of a string. -/
def utf8Bytes (s : String) : List Nat :=
  (s.data.map fun c => utf8EncodeChar c.toNat).flatten

/-- Reduce modulo `2 ^ 32` (32-bit machine word). -/
def mask32 (x : Nat) : Nat := x % 4294967296

/-- Left-rotate a 32-bit word by `n` bits. -/
def rotl32 (n x : Nat) : Nat := mask32 (x * 2 ^ n + x / 2 ^ (32 - n))

/-- Bitwise complement of a 32-bit word. -/
def not32 (x : Nat) : Nat := x ^^^ 4294967295

/-- Big-endian bytes of `x`, `n` bytes wide. -/
def beBytes : Nat → Nat → List Nat
  | 0, _ => []
  | n + 1, x => beBytes n (x / 256) ++ [x % 256]

/-- Little-endian bytes of `x`, `n` bytes wide. -/
def leBytes : Nat → Nat → List Nat
  | 0, _ => []
  | n + 1, x => x % 256 :: leBytes n (x / 256)

/-- Group bytes into big-endian 32-bit words. -/
def beWords : List Nat → List Nat
  | a :: b :: c :: d :: rest => (a * 16777216 + b * 65536 + c * 256 + d) :: beWords rest
  | _ => []

/-- Group bytes into little-endian 32-bit words. -/
def leWords : List Nat → List Nat
  | a :: b :: c :: d :: rest => (a + b * 256 + c * 65536 + d * 16777216) :: leWords rest
  | _ => []

/-- Split a byte list into 64-byte blocks.  The first argument is fuel
bounding the number of blocks (each step consumes at least 64 bytes, so the
list length is always enough); it makes the recursion structural, hence
definitionally computable. -/
def chunks64Go : Nat → List Nat → List (List Nat)
  | _, [] => []
  | 0, _ :: _ => []
  | fuel + 1, a :: rest => ((a :: rest).take 64) :: chunks64Go fuel (rest.drop 63)

/-- Split a byte list into 64-byte blocks. -/
def chunks64 (l : List Nat) : List (List Nat) := chunks64Go l.length l

/-- Merkle–Damgård padding: append `0x80`, zeros to 56 mod 64, then the
8-byte bit length (big-endian for SHA-1). -/
def sha1Pad (msg : List Nat) : List Nat :=
  let k := (120 - (msg.length + 1) % 64) % 64
  msg ++ [128] ++ List.replicate k 0 ++ beBytes 8 (msg.length * 8)

/-- SHA-1 message schedule: extend 16 words to 80. -/
def sha1Extend (w : Array Nat) : Array Nat :=
  (List.range 64).foldl
    (fun w j =>
      w.push (rotl32 1 ((w.getD (j + 13) 0 ^^^ w.getD (j + 8) 0) ^^^
        (w.getD (j + 2) 0 ^^^ w.getD j 0))))
    w

/-- SHA-1 round function. -/
def sha1F (t b c d : Nat) : Nat :=
  if t < 20 then (b &&& c) ||| (not32 b &&& d)
  else if t < 40 then b ^^^ c ^^^ d
  else if t < 60 then (b &&& c) ||| (b &&& d) ||| (c &&& d)
  else b ^^^ c ^^^ d

/-- SHA-1 round constants. -/
def sha1K (t : Nat) : Nat :=
  if t < 20 then 1518500249
  else if t < 40 then 1859775393
  else if t < 60 then 2400959708
  else 3395469782

/-- SHA-1 compression of one 64-byte block. -/
def sha1Chunk (h : Nat × Nat × Nat × Nat × Nat) (chunk : List Nat) :
    Nat × Nat × Nat × Nat × Nat :=
  let w := sha1Extend (Array.mk (beWords chunk))
  let (h0, h1, h2, h3, h4) := h
  let s := (List.range 80).foldl
    (fun (st : Nat × Nat × Nat × Nat × Nat) t =>
      let (a, b, c, d, e) := st
      let temp := mask32 (rotl32 5 a + sha1F t b c d + e + sha1K t + w.getD t 0)
      (temp, a, rotl32 30 b, c, d))
    (h0, h1, h2, h3, h4)
  let (a, b, c, d, e) := s
  (mask32 (h0 + a), mask32 (h1 + b), mask32 (h2 + c), mask32 (h3 + d), mask32 (h4 + e))

/-- SHA-1 digest (20 bytes) of a byte string: `hashlib.sha1`. -/
def sha1 (msg : List Nat) : List Nat :=
  let r := (chunks64 (sha1Pad msg)).foldl sha1Chunk
    (1732584193, 4023233417, 2562383102, 271733878, 3285377520)
  let (h0, h1, h2, h3, h4) := r
  beBytes 4 h0 ++ beBytes 4 h1 ++ beBytes 4 h2 ++ beBytes 4 h3 ++ beBytes 4 h4

/-- HMAC-SHA1 (`hmac.new(key, msg, hashlib.sha1).digest()`), block size 64. -/
def hmacSha1 (key msg : List Nat) : List Nat :=
  let k0 := if key.length > 64 then sha1 key else key
  let k := k0 ++ List.replicate (64 - k0.length) 0
  let ipad := k.map fun b => b ^^^ 54
  let opad := k.map fun b => b ^^^ 92
  sha1 (opad ++ sha1 (ipad ++ msg))

/-- MD5 padding: like SHA-1 but the bit length is little-endian. -/
def md5Pad (msg : List Nat) : List Nat :=
  let k := (120 - (msg.length + 1) % 64) % 64
  msg ++ [128] ++ List.replicate k 0 ++ leBytes 8 (msg.length * 8)

/-- MD5 per-round left-rotation amounts. -/
def md5S : List Nat :=
  [7, 12, 17, 22, 7, 12, 17, 22, 7, 12, 17, 22, 7, 12, 17, 22,
   5, 9, 14, 20, 5, 9, 14, 20, 5, 9, 14, 20, 5, 9, 14, 20,
   4, 11, 16, 23, 4, 11, 16, 23, 4, 11, 16, 23, 4, 11, 16, 23,
   6, 10, 15, 21, 6, 10, 15, 21, 6, 10, 15, 21, 6, 10, 15, 21]

/-- MD5 per-round additive constants. -/
def md5K : List Nat :=
  [3614090360, 3905402710, 606105819, 3250441966,
   4118548399, 1200080426, 2821735955, 4249261313,
   1770035416, 2336552879, 4294925233, 2304563134,
   1804603682, 4254626195, 2792965006, 1236535329,
   4129170786, 3225465664, 643717713, 3921069994,
   3593408605, 38016083, 3634488961, 3889429448,
   568446438, 3275163606, 4107603335, 1163531501,
   2850285829, 4243563512, 1735328473, 2368359562,
   4294588738, 2272392833, 1839030562, 4259657740,
   2763975236, 1272893353, 4139469664, 3200236656,
   681279174, 3936430074, 3572445317, 76029189,
   3654602809, 3873151461, 530742520, 3299628645,
   4096336452, 1126891415, 2878612391, 4237533241,
   1700485571, 2399980690, 4293915773, 2240044497,
   1873313359, 4264355552, 2734768916, 1309151649,
   4149444226, 3174756917, 718787259, 3951481745]

/-- MD5 round function. -/
def md5F (i b c d : Nat) : Nat :=
  if i < 16 then (b &&& c) ||| (not32 b &&& d)
  else if i < 32 then (d &&& b) ||| (not32 d &&& c)
  else if i < 48 then b ^^^ c ^^^ d
  else c ^^^ (b ||| not32 d)

/-- MD5 message-word index per round. -/
def md5G (i : Nat) : Nat :=
  if i < 16 then i
  else if i < 32 then (5 * i + 1) % 16
  else if i < 48 then (3 * i + 5) % 16
  else 7 * i % 16

/-- MD5 compression of one 64-byte block. -/
def md5Chunk (h : Nat × Nat × Nat × Nat) (chunk : List Nat) :
    Nat × Nat × Nat × Nat :=
  let m := Array.mk (leWords chunk)
  let (a0, b0, c0, d0) := h
  let s := (List.range 64).foldl
    (fun (st : Nat × Nat × Nat × Nat) i =>
      let (a, b, c, d) := st
      let f := mask32 (md5F i b c d + a + md5K.getD i 0 + m.getD (md5G i) 0)
      (d, mask32 (b + rotl32 (md5S.getD i 0) f), b, c))
    (a0, b0, c0, d0)
  let (a, b, c, d) := s
  (mask32 (a0 + a), mask32 (b0 + b), mask32 (c0 + c), mask32 (d0 + d))

/-- MD5 digest (16 bytes) of a byte string: `hashlib.md5`. -/
def md5 (msg : List Nat) : List Nat :=
  let r := (chunks64 (md5Pad msg)).foldl md5Chunk
    (1732584193, 4023233417, 2562383102, 271733878)
  let (a, b, c, d) := r
  leBytes 4 a ++ leBytes 4 b ++ leBytes 4 c ++ leBytes 4 d

/-- The base64 alphabet. -/
def b64Alphabet : String :=
  "ABCDEFGHIJKLMNOPQRSTUVWXYZabcdefghijklmnopqrstuvwxyz0123456789+/"

/-- Character `n` of the base64 alphabet. -/
def b64Char (n : Nat) : Char := b64Alphabet.data.getD n 'A'

/-- Standard base64 encoding of a byte string (`base64.b64encode`). -/
def b64encode : List Nat → String
  | [] => ""
  | [a] => String.mk [b64Char (a / 4), b64Char (a % 4 * 16)] ++ "=="
  | [a, b] =>
      String.mk [b64Char (a / 4), b64Char (a % 4 * 16 + b / 16), b64Char (b % 16 * 4)] ++ "="
  | a :: b :: c :: rest =>
      String.mk [b64Char (a / 4), b64Char (a % 4 * 16 + b / 16),
        b64Char (b % 16 * 4 + c / 64), b64Char (c % 64)] ++ b64encode rest

/-! ### The client (`class BBT`) -/

/-- Module-level endpoint constants (source lines 18-21).  Note the source
really spells the public read endpoint `/vi/...`. -/
def publicReadEndpoint : String := "/vi/public/data/read"

/-- `__readEndpoint__` (source line 19). -/
def readEndpoint : String := "/v1/data/read"

/-- `__writeEndpoint__` (source line 20). -/
def writeEndpoint : String := "/v1/data/write"

/-- `__publishEndpoint__` (source line 21). -/
def publishEndpoint : String := "/v1/data/publish"

/-- Credentials and connection parameters held by a `BBT` instance
(source lines 39-44). -/
structure BBT where
  akey : String
  skey : String
  hostname : String
  port : String
  ssl : Bool

/-- `BBT.sign` (source lines 55-57): access key, a colon, and the base64 of
the HMAC-SHA1 of the string under the secret key. -/
def BBT.sign (c : BBT) (stringToSign : String) : String :=
  c.akey ++ ":" ++ b64encode (hmacSha1 (utf8Bytes c.skey) (utf8Bytes stringToSign))

/-- `BBT.__signRequest__` (source lines 70-72): signs the five-line canonical
string `verb, c_md5, c_type, date, uri` joined by newlines, in the order of
the format string on line 71. -/
def BBT.signRequest (c : BBT) (verb uri date c_type c_md5 : String) : String :=
  c.sign (verb ++ "\n" ++ c_md5 ++ "\n" ++ c_type ++ "\n" ++ date ++ "\n" ++ uri)

/-! ### JSON serialization (`json.dumps` with separators `,` and `:`) -/

/-- Lowercase hex digit. -/
def hexDigitLower (n : Nat) : Char := "0123456789abcdef".data.getD n '0'

/-- Four lowercase hex digits, as in a JSON `\uXXXX` escape. -/
def hex4 (n : Nat) : String :=
  String.mk [hexDigitLower (n / 4096 % 16), hexDigitLower (n / 256 % 16),
    hexDigitLower (n / 16 % 16), hexDigitLower (n % 16)]

/-- JSON escaping of one character, following `json.dumps` with its default
`ensure_ascii=True`: short escapes for the common controls, `\uXXXX` for
other controls and all non-ASCII characters (surrogate pairs above the basic
plane). -/
def jsonEscapeChar (c : Char) : String :=
  if c = '"' then "\\\""
  else if c = '\\' then "\\\\"
  else if c = '\n' then "\\n"
  else if c = '\t' then "\\t"
  else if c = '\r' then "\\r"
  else if c.toNat = 8 then "\\b"
  else if c.toNat = 12 then "\\f"
  else if c.toNat < 32 then "\\u" ++ hex4 c.toNat
  else if c.toNat < 127 then String.singleton c
  else if c.toNat < 65536 then "\\u" ++ hex4 c.toNat
  else
    "\\u" ++ hex4 (55296 + (c.toNat - 65536) / 1024) ++
      "\\u" ++ hex4 (56320 + (c.toNat - 65536) % 1024)

/-- JSON escaping of a whole string (without the surrounding quotes). -/
def jsonEscape (s : String) : String :=
  String.join (s.data.map jsonEscapeChar)

mutual

/-- `json.dumps(x, separators=(",", ":"))`: compact JSON serialization. -/
def dumps : Json → String
  | .null => "null"
  | .bool true => "true"
  | .bool false => "false"
  | .num n => toString n
  | .str s => "\"" ++ jsonEscape s ++ "\""
  | .arr l => "[" ++ dumpsList l ++ "]"
  | .obj l => "\x7b" ++ dumpsObj l ++ "\x7d"

/-- Comma-separated serialization of array elements. -/
def dumpsList : List Json → String
  | [] => ""
  | [x] => dumps x
  | x :: y :: rest => dumps x ++ "," ++ dumpsList (y :: rest)

/-- Comma-separated serialization of object members. -/
def dumpsObj : List (String × Json) → String
  | [] => ""
  | [kv] => "\"" ++ jsonEscape kv.1 ++ "\":" ++ dumps kv.2
  | kv :: kv2 :: rest =>
      "\"" ++ jsonEscape kv.1 ++ "\":" ++ dumps kv.2 ++ "," ++ dumpsObj (kv2 :: rest)

end

/-! ### Response processing (`BBT.__processResponse__`, source lines 81-130) -/

/-- The response dict handed to `__processResponse__`:
`{'status': r.status_code, 'data': r.text}`.  The `data` field holds the
outcome of `json.loads(response['data'])`: `none` when the body text is not
valid JSON (in which case `json.loads` raises). -/
structure HttpResponse where
  status : Nat
  data : Option Json

/-- Python subscripting `j[k]` with a string key on a decoded JSON value:
the value for a present key, `KeyError` for a missing key, and `TypeError`
when `j` is not a dict. -/
def pySubscript (j : Json) (k : String) : Except PyErr Json :=
  match j with
  | .obj l =>
      match l.lookup k with
      | some v => Except.ok v
      | none => Except.error (PyErr.builtin PyExc.KeyError)
  | _ => Except.error (PyErr.builtin PyExc.TypeError)

/-- Python `==` between a decoded JSON value and an integer literal: true for
the equal number and for the equal boolean (`True == 1`), false otherwise. -/
def pyEqInt (j : Json) (n : Int) : Bool :=
  match j with
  | .num m => m == n
  | .bool b => (if b then (1 : Int) else 0) == n
  | _ => false

/-- `BBT.__processResponse__` (source lines 81-130).  `json.loads` runs
first, so an unparsable body raises regardless of the status; a status below
400 returns the parsed body; otherwise `error.code` and `error.message` are
extracted (raising `KeyError`/`TypeError` when absent or not a dict) and the
status/code pair is dispatched.  Note line 113: for status 500 the `else`
branch raises `InternalError` as well, unlike the other status branches whose
fallback is `UnexpectedError`. -/
def processResponse (response : HttpResponse) : Except PyErr Json := do
  let code := response.status
  match response.data with
  | none => Except.error (PyErr.builtin PyExc.JSONDecodeError)
  | some data =>
    if code < 400 then
      Except.ok data
    else do
      let err ← pySubscript data "error"
      let errcode ← pySubscript err "code"
      let errmsg ← pySubscript err "message"
      if code = 400 then
        if pyEqInt errcode 1101 then Except.error (PyErr.exc (BBTExc.AuthenticationError errmsg))
        else if pyEqInt errcode 1401 then Except.error (PyErr.exc (BBTExc.ParameterError errmsg))
        else if pyEqInt errcode 1403 then Except.error (PyErr.exc (BBTExc.BadRequestError errmsg))
        else if pyEqInt errcode 1404 then Except.error (PyErr.exc (BBTExc.TypeError errmsg))
        else if pyEqInt errcode 1405 then Except.error (PyErr.exc (BBTExc.BadTypeError errmsg))
        else if pyEqInt errcode 1406 then Except.error (PyErr.exc (BBTExc.PayloadLimitError errmsg))
        else Except.error (PyErr.exc (BBTExc.UnexpectedError errmsg))
      else if code = 405 then
        if pyEqInt errcode 1102 then Except.error (PyErr.exc (BBTExc.NotAllowedError errmsg))
        else Except.error (PyErr.exc (BBTExc.UnexpectedError errmsg))
      else if code = 500 then
        if pyEqInt errcode 1201 then Except.error (PyErr.exc (BBTExc.InternalError errmsg))
        else Except.error (PyErr.exc (BBTExc.InternalError errmsg))
      else if code = 404 then
        if pyEqInt errcode 1301 then Except.error (PyErr.exc (BBTExc.NotFoundError errmsg))
        else if pyEqInt errcode 1302 then Except.error (PyErr.exc (BBTExc.NotFoundError errmsg))
        else if pyEqInt errcode 1303 then Except.error (PyErr.exc (BBTExc.NotFoundError errmsg))
        else if pyEqInt errcode 1304 then Except.error (PyErr.exc (BBTExc.AlreadyExistError errmsg))
        else if pyEqInt errcode 1305 then Except.error (PyErr.exc (BBTExc.AlreadyExistError errmsg))
        else if pyEqInt errcode 1306 then Except.error (PyErr.exc (BBTExc.AlreadyExistError errmsg))
        else Except.error (PyErr.exc (BBTExc.UnexpectedError errmsg))
      else Except.error (PyErr.exc (BBTExc.UnexpectedError errmsg))

/-! ### Request construction (`__postData__`, `__getData__` and the public
operations).  The network transport is external; the embedding captures the
request each operation hands to it. -/

/-- An HTTP request as assembled by `__postData__`/`__getData__`: the method,
the full URL (scheme, host, port and endpoint path), the endpoint path `uri`
that was passed in, the query mapping handed to `requests.get`, the POST
body, and the headers dict in insertion order. -/
structure Request where
  method : String
  url : String
  uri : String
  query : List (String × String)
  body : String
  headers : List (String × String)

/-- Byte values never percent-encoded by `urllib.parse.quote_plus`: ASCII
letters, digits, underscore, dot, hyphen, tilde. -/
def alwaysSafeByte (b : Nat) : Bool :=
  decide ((65 ≤ b ∧ b ≤ 90) ∨ (97 ≤ b ∧ b ≤ 122) ∨ (48 ≤ b ∧ b ≤ 57) ∨
    b = 95 ∨ b = 46 ∨ b = 45 ∨ b = 126)

/-- Uppercase hex digit, as used in percent-escapes. -/
def hexDigitUpper (n : Nat) : Char := "0123456789ABCDEF".data.getD n '0'

/-- `urllib.parse.quote_plus` over the UTF-8 bytes of a string: safe bytes
kept, space becomes `+`, everything else becomes `%XX`. -/
def quotePlus (s : String) : String :=
  String.join ((utf8Bytes s).map fun b =>
    if alwaysSafeByte b then String.singleton (Char.ofNat b)
    else if b = 32 then "+"
    else String.mk ['%', hexDigitUpper (b / 16), hexDigitUpper (b % 16)])

/-- `urllib.parse.urlencode` of a dict in insertion order. -/
def urlencode (q : List (String × String)) : String :=
  String.intercalate "&" (q.map fun kv => quotePlus kv.1 ++ "=" ++ quotePlus kv.2)

/-- `BBT.__postData__` (source lines 141-156).  The `Date` header value is
the `email.utils.formatdate()` clock reading, passed in as `date`.  The MD5
hash of the body is computed before the `auth` test and put in the headers
on both branches; only the `Authorization` header depends on `auth`. -/
def BBT.postData (c : BBT) (uri : String) (data : String) (auth : Bool) (date : String) :
    Request :=
  let url := (if c.ssl then "https" else "http") ++ "://" ++ c.hostname ++ ":" ++ c.port ++ uri
  let md5hash := b64encode (md5 (utf8Bytes data))
  let headers :=
    if auth then
      [("Content-MD5", md5hash), ("Content-Type", "application/json"), ("Date", date),
        ("Authorization", c.signRequest "POST" uri date "application/json" md5hash)]
    else
      [("Content-MD5", md5hash), ("Content-Type", "application/json"), ("Date", date)]
  { method := "POST", url := url, uri := uri, query := [], body := data, headers := headers }

/-- `BBT.__getData__` (source lines 167-182).  When `auth` is true the
signature is computed over `full_uri` (endpoint plus encoded query); the
headers never include a content hash. -/
def BBT.getData (c : BBT) (uri : String) (query : List (String × String)) (auth : Bool)
    (date : String) : Request :=
  let url := (if c.ssl then "https" else "http") ++ "://" ++ c.hostname ++ ":" ++ c.port ++ uri
  let full_uri := uri ++ "?" ++ urlencode query
  let headers :=
    if auth then
      [("Content-Type", "application/json"), ("Date", date),
        ("Authorization", c.signRequest "GET" full_uri date "application/json" "")]
    else
      [("Content-Type", "application/json"), ("Date", date)]
  { method := "GET", url := url, uri := uri, query := query, body := "", headers := headers }

/-- Python truthiness of an optional string argument (`if time_range:`); an
empty string is falsy. -/
def optStrTruthy : Option String → Bool
  | none => false
  | some s => !(s == "")

/-- Python truthiness of an optional integer argument (`if ts:`); zero is
falsy. -/
def optIntTruthy : Option Int → Bool
  | none => false
  | some n => !(n == 0)

/-- Python truthiness of a decoded JSON value (`if source:`). -/
def pyTruthy : Json → Bool
  | .null => false
  | .bool b => b
  | .num n => !(n == 0)
  | .str s => !(s == "")
  | .arr l => !l.isEmpty
  | .obj l => !l.isEmpty

/-- Python truthiness of an optional JSON-valued argument. -/
def optJsonTruthy : Option Json → Bool
  | none => false
  | some j => pyTruthy j

/-- Query dict built by `BBT.read` (source lines 232-238) and `readPublic`
(lines 203-209): `limit` and `source` always, `time-range` and `filter` when
truthy.  A truthy `sample_rate` evaluates the bareword subtraction
`sample-rate` (line 238), whose names are undefined, raising `NameError`. -/
def readQuery (limit : Int) (source : String) (time_range data_filter : Option String)
    (sample_rate : Option Int) : Except PyErr (List (String × String)) :=
  let q := [("limit", toString limit), ("source", source)]
  let q := if optStrTruthy time_range then q ++ [("time-range", time_range.getD "")] else q
  let q := if optStrTruthy data_filter then q ++ [("filter", data_filter.getD "")] else q
  if optIntTruthy sample_rate then Except.error (PyErr.builtin PyExc.NameError)
  else Except.ok q

/-- The default `limit` in the signature of `BBT.read` (source line 231). -/
def readDefaultLimit : Int := 1

/-- `BBT.read` (source lines 231-242).  Line 241 passes `False` for the
`auth` argument of `__getData__`, although the docstring on line 219 says
this call will be signed to authenticate the calling user. -/
def BBT.read (c : BBT) (channel resource : String) (limit : Int) (source : String)
    (time_range data_filter : Option String) (sample_rate : Option Int) (date : String) :
    Except PyErr Request := do
  let query ← readQuery limit source time_range data_filter sample_rate
  let endpoint := readEndpoint ++ "/" ++ channel ++ "/" ++ resource
  Except.ok (c.getData endpoint query false date)

/-- `BBT.readPublic` (source lines 202-212): unauthenticated GET against the
(mis-spelt) public read endpoint. -/
def BBT.readPublic (c : BBT) (owner channel resource : String) (limit : Int) (source : String)
    (time_range data_filter : Option String) (sample_rate : Option Int) (date : String) :
    Except PyErr Request := do
  let query ← readQuery limit source time_range data_filter sample_rate
  let endpoint := publicReadEndpoint ++ "/" ++ owner ++ "/" ++ channel ++ "/" ++ resource
  Except.ok (c.getData endpoint query false date)

/-- Body dict built by `BBT.write` (source lines 259-263).  `now` stands for
the clock reading `round(time.time() * 1000)`; a falsy `ts` argument (absent
or zero) is replaced by it. -/
def writeBody (data : Json) (ts : Option Int) (now : Int) : List (String × Json) :=
  if optIntTruthy ts then [("data", data), ("ts", Json.num (ts.getD 0))]
  else [("data", data), ("ts", Json.num now)]

/-- `BBT.write` (source lines 258-267): authenticated POST of the body to
`/v1/data/write/<channel>/<resource>`. -/
def BBT.write (c : BBT) (channel resource : String) (data : Json) (ts : Option Int)
    (now : Int) (date : String) : Request :=
  c.postData (writeEndpoint ++ "/" ++ channel ++ "/" ++ resource)
    (dumps (Json.obj (writeBody data ts now))) true date

/-- Body dict built by `BBT.publish` (source lines 310-317): `data`, then
`source` when truthy, then `ts` (defaulted like in `write`). -/
def publishBody (data : Json) (ts : Option Int) (src : Option Json) (now : Int) :
    List (String × Json) :=
  let body := [("data", data)]
  let body := if optJsonTruthy src then body ++ [("source", src.getD Json.null)] else body
  if optIntTruthy ts then body ++ [("ts", Json.num (ts.getD 0))]
  else body ++ [("ts", Json.num now)]

/-- `BBT.publish` (source lines 309-321): authenticated POST of the body to
`/v1/data/publish/<channel>/<resource>`. -/
def BBT.publish (c : BBT) (channel resource : String) (data : Json) (ts : Option Int)
    (src : Option Json) (now : Int) (date : String) : Request :=
  c.postData (publishEndpoint ++ "/" ++ channel ++ "/" ++ resource)
    (dumps (Json.obj (publishBody data ts src now))) true date

/-- `BBT.writeBulk` (source lines 286-291).  Line 289 interpolates the name
`resource` into the endpoint, but no such name is defined in any enclosing
scope, so evaluating the argument tuple raises `NameError` on every call,
before any request is built or sent. -/
def BBT.writeBulk (_c : BBT) (_channel : String) (_data_array : List Json) :
    Except PyErr Request :=
  Except.error (PyErr.builtin PyExc.NameError)

/-- `BBT.publishBulk` (source lines 342-347): same undefined `resource`
reference on line 345, so every call raises `NameError`. -/
def BBT.publishBulk (_c : BBT) (_channel : String) (_data_array : List Json) :
    Except PyErr Request :=
  Except.error (PyErr.builtin PyExc.NameError)

/-- `BBT.auth_client` (source lines 362-370): a purely local computation
that renders the read/write flags as `true`/`false` literals, interpolates
the metadata into the string on line 369, and signs it. -/
def BBT.auth_client (c : BBT) (sid channel resource : String) (ttl : Int)
    (read write : Bool) : String :=
  let r := if read then "true" else "false"
  let w := if write then "true" else "false"
  let stringToSign := sid ++ ":" ++ channel ++ "." ++ resource ++ ".:ttl=" ++ toString ttl ++
    ":read=" ++ r ++ ":write=" ++ w
  c.sign stringToSign

/-! ### `Resource` and `DataPoint` -/

/-- Python list subscripting `l[i]`: `IndexError` when out of range, as in
`Resource.recentVal` (source line 450). -/
def pyListGet (l : List Json) (i : Nat) : Except PyErr Json :=
  match l.get? i with
  | some x => Except.ok x
  | none => Except.error (PyErr.builtin PyExc.IndexError)

/-- Request side of `Resource.recentVal` (source line 450): the call
`self.bbt.read(self.channel, self.resource, limit = 1)`, every other
argument at its default. -/
def recentValRequest (c : BBT) (channel resource : String) (date : String) :
    Except PyErr Request :=
  c.read channel resource 1 "raw" none none none date

/-- Response side of `Resource.recentVal` (source line 450): the sequence
the `read` call returned, subscripted at 0. -/
def recentValFromRecords (records : List Json) : Except PyErr Json :=
  pyListGet records 0

/-- `class DataPoint` (source lines 452-470): `channel` and `resource`
default to `None` in the constructor. -/
structure DataPoint where
  channel : Option String
  resource : Option String
  data : Json
  ts : Json

/-- An optional string as the JSON value Python would serialize. -/
def optStrJson : Option String → Json
  | none => Json.null
  | some s => Json.str s

/-- `DataPoint.toJSON` (source lines 469-470): the transmittable mapping. -/
def DataPoint.toJSON (p : DataPoint) (owner : Option String) : List (String × Json) :=
  [("owner", optStrJson owner), ("channel", optStrJson p.channel),
    ("resource", optStrJson p.resource), ("data", p.data), ("ts", p.ts)]

/-- Python dict subscripting `params[k]` on a record: `KeyError` when the
key is missing. -/
def dictGet (d : List (String × Json)) (k : String) : Except PyErr Json :=
  match d.lookup k with
  | some v => Except.ok v
  | none => Except.error (PyErr.builtin PyExc.KeyError)

/-- `DataPoint.fromJSON` (source lines 464-467): reads only `data` and `ts`
from the record and leaves `channel`/`resource` at their `None` defaults. -/
def DataPoint.fromJSON (params : List (String × Json)) : Except PyErr DataPoint := do
  let d ← dictGet params "data"
  let t ← dictGet params "ts"
  Except.ok { channel := none, resource := none, data := d, ts := t }

/-! ### Spec-side definitions used to state the claims -/

/-- The closed enumeration of error kinds named by the specification
(section 7); `InvalidType` is the kind the source realises with its own
`TypeError` class. -/
inductive ErrorKind where
  | Authentication : ErrorKind
  | Parameter : ErrorKind
  | BadRequest : ErrorKind
  | InvalidType : ErrorKind
  | BadType : ErrorKind
  | PayloadLimit : ErrorKind
  | NotAllowed : ErrorKind
  | Internal : ErrorKind
  | NotFound : ErrorKind
  | AlreadyExist : ErrorKind
  | Unexpected : ErrorKind
  deriving DecidableEq

/-- The classification table written from the specification's words
(section 7), with the one amendment the code forces: every status-500
response maps to `Internal`, not only code 1201 (the source's 500 branch
raises `InternalError` on both of its arms). -/
def classifySpec (status : Nat) (code : Int) : ErrorKind :=
  if status = 400 ∧ code = 1101 then ErrorKind.Authentication
  else if status = 400 ∧ code = 1401 then ErrorKind.Parameter
  else if status = 400 ∧ code = 1403 then ErrorKind.BadRequest
  else if status = 400 ∧ code = 1404 then ErrorKind.InvalidType
  else if status = 400 ∧ code = 1405 then ErrorKind.BadType
  else if status = 400 ∧ code = 1406 then ErrorKind.PayloadLimit
  else if status = 405 ∧ code = 1102 then ErrorKind.NotAllowed
  else if status = 500 then ErrorKind.Internal
  else if status = 404 ∧ 1301 ≤ code ∧ code ≤ 1303 then ErrorKind.NotFound
  else if status = 404 ∧ 1304 ≤ code ∧ code ≤ 1306 then ErrorKind.AlreadyExist
  else ErrorKind.Unexpected

/-- The exception class the source raises for each spec-level error kind,
carrying the extracted message. -/
def excOf (k : ErrorKind) (msg : Json) : BBTExc :=
  match k with
  | ErrorKind.Authentication => BBTExc.AuthenticationError msg
  | ErrorKind.Parameter => BBTExc.ParameterError msg
  | ErrorKind.BadRequest => BBTExc.BadRequestError msg
  | ErrorKind.InvalidType => BBTExc.TypeError msg
  | ErrorKind.BadType => BBTExc.BadTypeError msg
  | ErrorKind.PayloadLimit => BBTExc.PayloadLimitError msg
  | ErrorKind.NotAllowed => BBTExc.NotAllowedError msg
  | ErrorKind.Internal => BBTExc.InternalError msg
  | ErrorKind.NotFound => BBTExc.NotFoundError msg
  | ErrorKind.AlreadyExist => BBTExc.AlreadyExistError msg
  | ErrorKind.Unexpected => BBTExc.UnexpectedError msg

/-- A well-formed error body: `{"error": {"code": <code>, "message": <m>}}`. -/
def errBody (code : Int) (m : Json) : Json :=
  Json.obj [("error", Json.obj [("code", Json.num code), ("message", m)])]

/-- A concrete client instance for the closed evaluation theorems. -/
def bbtEx : BBT :=
  { akey := "akey1", skey := "skey1", hostname := "api.beebotte.com", port := "80",
    ssl := false }

/-! ### Sanity checks of the crypto primitives against published vectors -/

set_option maxRecDepth 10000 in
/-- SHA-1 of the empty string, base64 encoded (FIPS 180 test vector). -/
theorem sha1_empty_vector :
    b64encode (sha1 (utf8Bytes "")) = "2jmj7l5rSw0yVb/vlWAYkK/YBwk=" := by rfl

set_option maxRecDepth 10000 in
/-- HMAC-SHA1 with key `key` over the fox pangram, base64 encoded
(the widely published vector). -/
theorem hmac_sha1_fox_vector :
    b64encode (hmacSha1 (utf8Bytes "key")
      (utf8Bytes "The quick brown fox jumps over the lazy dog")) =
    "3nybhbi3iqa8ino29wqQcBydtNk=" := by rfl

set_option maxRecDepth 10000 in
/-- MD5 of the fox pangram, base64 encoded (RFC 1321 appendix vector). -/
theorem md5_fox_vector :
    b64encode (md5 (utf8Bytes "The quick brown fox jumps over the lazy dog")) =
    "nhB9nTcrtoJr2B01QqQZ1g==" := by rfl

/-! ### The claims -/

/-- C1: for every verb, uri, date, content type and content MD5, the request
signature is the access key, a colon, and the base64 of the HMAC-SHA1 (keyed
by the secret key) of the five-line canonical string
`VERB\nContentMD5\nContentType\nDate\nURI` joined by newlines in exactly
that order; being a function of its arguments alone, it is pure and
deterministic. -/
theorem sign_request_canonical (c : BBT) (verb uri date ctype cmd5 : String) :
    c.signRequest verb uri date ctype cmd5 =
      c.akey ++ ":" ++ b64encode (hmacSha1 (utf8Bytes c.skey)
        (utf8Bytes (verb ++ "\n" ++ cmd5 ++ "\n" ++ ctype ++ "\n" ++ date ++ "\n" ++ uri))) :=
  rfl

/-- C2 counterexample: the claim maps any pair outside the fixed table to
`Unexpected`, but the code answers status 500 with unknown code 9999 by
raising `InternalError`, which is a different exception class than
`UnexpectedError`. -/
theorem processResponse_500_unknown_internal :
    processResponse ⟨500, some (errBody 9999 (Json.str "m"))⟩ =
      Except.error (PyErr.exc (BBTExc.InternalError (Json.str "m"))) ∧
    BBTExc.InternalError (Json.str "m") ≠ BBTExc.UnexpectedError (Json.str "m") :=
  ⟨rfl, fun h => BBTExc.noConfusion h⟩

set_option maxHeartbeats 1000000 in
/-- C2 (amended): for every status and well-formed parsed error body,
response processing returns the body when the status is below 400 and
otherwise raises the exception class of the fixed table — with the one
correction that every 500 status maps to Internal, whatever the code. -/
theorem processResponse_error_table (status : Nat) (code : Int) (m : Json) :
    processResponse ⟨status, some (errBody code m)⟩ =
      if status < 400 then Except.ok (errBody code m)
      else Except.error (PyErr.exc (excOf (classifySpec status code) m)) := by
  have h1 : processResponse ⟨status, some (errBody code m)⟩ =
      (if status < 400 then Except.ok (errBody code m)
       else
        if status = 400 then
          if code == 1101 then Except.error (PyErr.exc (BBTExc.AuthenticationError m))
          else if code == 1401 then Except.error (PyErr.exc (BBTExc.ParameterError m))
          else if code == 1403 then Except.error (PyErr.exc (BBTExc.BadRequestError m))
          else if code == 1404 then Except.error (PyErr.exc (BBTExc.TypeError m))
          else if code == 1405 then Except.error (PyErr.exc (BBTExc.BadTypeError m))
          else if code == 1406 then Except.error (PyErr.exc (BBTExc.PayloadLimitError m))
          else Except.error (PyErr.exc (BBTExc.UnexpectedError m))
        else if status = 405 then
          if code == 1102 then Except.error (PyErr.exc (BBTExc.NotAllowedError m))
          else Except.error (PyErr.exc (BBTExc.UnexpectedError m))
        else if status = 500 then
          if code == 1201 then Except.error (PyErr.exc (BBTExc.InternalError m))
          else Except.error (PyErr.exc (BBTExc.InternalError m))
        else if status = 404 then
          if code == 1301 then Except.error (PyErr.exc (BBTExc.NotFoundError m))
          else if code == 1302 then Except.error (PyErr.exc (BBTExc.NotFoundError m))
          else if code == 1303 then Except.error (PyErr.exc (BBTExc.NotFoundError m))
          else if code == 1304 then Except.error (PyErr.exc (BBTExc.AlreadyExistError m))
          else if code == 1305 then Except.error (PyErr.exc (BBTExc.AlreadyExistError m))
          else if code == 1306 then Except.error (PyErr.exc (BBTExc.AlreadyExistError m))
          else Except.error (PyErr.exc (BBTExc.UnexpectedError m))
        else Except.error (PyErr.exc (BBTExc.UnexpectedError m))) := rfl
  rw [h1]
  by_cases h0 : status < 400
  · simp only [h0, if_true]
  · simp only [h0, if_false]
    by_cases e1 : status = 400
    · subst e1
      by_cases c1 : code = 1101
      · subst c1; rfl
      by_cases c2 : code = 1401
      · subst c2; rfl
      by_cases c3 : code = 1403
      · subst c3; rfl
      by_cases c4 : code = 1404
      · subst c4; rfl
      by_cases c5 : code = 1405
      · subst c5; rfl
      by_cases c6 : code = 1406
      · subst c6; rfl
      simp [classifySpec, excOf, c1, c2, c3, c4, c5, c6]
    by_cases e2 : status = 405
    · subst e2
      by_cases c1 : code = 1102
      · subst c1; rfl
      simp [classifySpec, excOf, c1]
    by_cases e3 : status = 500
    · subst e3
      simp [classifySpec, excOf, ite_self]
    by_cases e4 : status = 404
    · subst e4
      by_cases c1 : code = 1301
      · subst c1; rfl
      by_cases c2 : code = 1302
      · subst c2; rfl
      by_cases c3 : code = 1303
      · subst c3; rfl
      by_cases c4 : code = 1304
      · subst c4; rfl
      by_cases c5 : code = 1305
      · subst c5; rfl
      by_cases c6 : code = 1306
      · subst c6; rfl
      have hr1 : ¬(1301 ≤ code ∧ code ≤ 1303) := by omega
      have hr2 : ¬(1304 ≤ code ∧ code ≤ 1306) := by omega
      simp [classifySpec, excOf, c1, c2, c3, c4, c5, c6, hr1, hr2]
    simp [classifySpec, excOf, e1, e2, e3, e4]

/-- C3 counterexample: a status-500 response with an unparsable body makes
response processing crash with an unhandled JSON decoding error; no
`MalformedResponse` failure exists anywhere in the code. -/
theorem processResponse_unparsable_crash :
    processResponse ⟨500, none⟩ = Except.error (PyErr.builtin PyExc.JSONDecodeError) := rfl

/-- C3 (amended): for every status of at least 400, an unparsable body makes
response processing crash with an unhandled JSON decoding error, and a
parsed body lacking `error`, `error.code` or `error.message` makes it crash
with an unhandled `KeyError`; the code has no `MalformedResponse` failure
and does not catch these exceptions. -/
theorem processResponse_malformed_crash (status : Nat) (h : 400 ≤ status) (m : Json) :
    processResponse ⟨status, none⟩ = Except.error (PyErr.builtin PyExc.JSONDecodeError) ∧
    processResponse ⟨status, some (Json.obj [])⟩ =
        Except.error (PyErr.builtin PyExc.KeyError) ∧
    processResponse ⟨status, some (Json.obj [("error", Json.obj [("message", m)])])⟩ =
        Except.error (PyErr.builtin PyExc.KeyError) ∧
    processResponse ⟨status, some (Json.obj [("error", Json.obj [("code", Json.num 1101)])])⟩ =
        Except.error (PyErr.builtin PyExc.KeyError) := by
  have h0 : ¬ status < 400 := by omega
  refine ⟨rfl, ?_, ?_, ?_⟩
  · have e : processResponse ⟨status, some (Json.obj [])⟩ =
        (if status < 400 then Except.ok (Json.obj [])
         else Except.error (PyErr.builtin PyExc.KeyError)) := rfl
    rw [e, if_neg h0]
  · have e : processResponse ⟨status, some (Json.obj [("error", Json.obj [("message", m)])])⟩ =
        (if status < 400 then Except.ok (Json.obj [("error", Json.obj [("message", m)])])
         else Except.error (PyErr.builtin PyExc.KeyError)) := rfl
    rw [e, if_neg h0]
  · have e : processResponse
        ⟨status, some (Json.obj [("error", Json.obj [("code", Json.num 1101)])])⟩ =
        (if status < 400 then Except.ok (Json.obj [("error", Json.obj [("code", Json.num 1101)])])
         else Except.error (PyErr.builtin PyExc.KeyError)) := rfl
    rw [e, if_neg h0]

/-- C3 witness: the amended statement evaluated at status 500. -/
theorem processResponse_malformed_crash_witness :
    400 ≤ 500 ∧
    (processResponse ⟨500, none⟩ = Except.error (PyErr.builtin PyExc.JSONDecodeError) ∧
    processResponse ⟨500, some (Json.obj [])⟩ =
        Except.error (PyErr.builtin PyExc.KeyError) ∧
    processResponse ⟨500, some (Json.obj [("error", Json.obj [("message", Json.str "x")])])⟩ =
        Except.error (PyErr.builtin PyExc.KeyError) ∧
    processResponse ⟨500, some (Json.obj [("error", Json.obj [("code", Json.num 1101)])])⟩ =
        Except.error (PyErr.builtin PyExc.KeyError)) :=
  ⟨by omega, processResponse_malformed_crash 500 (by omega) (Json.str "x")⟩

/-- C4: `read` builds a GET against `/v1/data/read/<channel>/<resource>`
with default limit 1, but the request is NOT authenticated: its headers are
only `Content-Type` and `Date`, with no `Authorization` entry, because
source line 241 passes `False` to `__getData__` although the docstring says
the call will be signed.  This theorem exhibits the divergence claimed by
the code-bug verdict. -/
theorem read_request_unauthenticated (c : BBT) (channel resource : String) (limit : Int)
    (source : String) (tr df : Option String) (date : String) :
    (c.read channel resource limit source tr df none date).map
        (fun r => (r.method, r.uri, r.headers.map Prod.fst)) =
      Except.ok ("GET", readEndpoint ++ "/" ++ channel ++ "/" ++ resource,
        ["Content-Type", "Date"]) ∧
    (c.read channel resource readDefaultLimit "raw" none none none date).map
        (fun r => r.query) =
      Except.ok [("limit", "1"), ("source", "raw")] := ⟨rfl, rfl⟩

/-- C5: every call to `writeBulk` or `publishBulk` raises `NameError`
(source lines 289 and 345 interpolate the undefined name `resource`), so no
POST request is ever issued, contrary to the claim. -/
theorem bulk_calls_raise_name_error (c : BBT) (channel : String) (arr : List Json) :
    c.writeBulk channel arr = Except.error (PyErr.builtin PyExc.NameError) ∧
    c.publishBulk channel arr = Except.error (PyErr.builtin PyExc.NameError) := ⟨rfl, rfl⟩

/-- C6 counterexample: an unauthenticated POST still computes the body hash
and sends a `Content-MD5` header, contradicting the claim that no content
hash is computed or sent on unauthenticated calls. -/
theorem postData_unauth_contains_md5 :
    (BBT.postData bbtEx "/v1/data/write/mychannel/temp" "\x7b\"data\":1\x7d" false
        "Thu, 01 Jan 2026 00:00:00 -0000").headers.map Prod.fst =
      ["Content-MD5", "Content-Type", "Date"] := rfl

/-- C6 (amended): unauthenticated calls omit the `Authorization` header
entirely; GET requests carry no `Content-MD5` header, but the POST helper
computes the body hash before the authentication test and sends
`Content-MD5` even when authentication is disabled. -/
theorem unauth_requests_headers (c : BBT) (uri data date : String)
    (query : List (String × String)) :
    (c.getData uri query false date).headers.map Prod.fst = ["Content-Type", "Date"] ∧
    (c.postData uri data false date).headers.map Prod.fst =
      ["Content-MD5", "Content-Type", "Date"] := ⟨rfl, rfl⟩

/-- C7: client-auth signing is a pure local computation (its type is a
function of the credentials and arguments alone, with no request value
involved) that signs exactly
`<sid>:<channel>.<resource>.:ttl=<ttl>:read=<r>:write=<w>` with the flags
rendered as `true`/`false`; in particular the documented example signs
exactly `sid1:presence:chat.*.:ttl=60:read=true:write=false`. -/
theorem auth_client_signs_exact (c : BBT) (sid channel resource : String) (ttl : Int)
    (read write : Bool) :
    c.auth_client sid channel resource ttl read write =
      c.sign (sid ++ ":" ++ channel ++ "." ++ resource ++ ".:ttl=" ++ toString ttl ++
        ":read=" ++ (if read then "true" else "false") ++
        ":write=" ++ (if write then "true" else "false")) ∧
    BBT.auth_client bbtEx "sid1" "presence:chat" "*" 60 true false =
      BBT.sign bbtEx "sid1:presence:chat.*.:ttl=60:read=true:write=false" := ⟨rfl, rfl⟩

/-- C8 counterexample: on an empty result sequence `recentVal` performs an
out-of-range subscript, crashing with `IndexError` — not a `NotFoundError`
as the claim states. -/
theorem recentVal_empty_crashes :
    recentValFromRecords [] = Except.error (PyErr.builtin PyExc.IndexError) := rfl

/-- C8 (amended): `recentVal` issues a read with limit 1 against the bound
channel and resource and returns the first element of the result sequence;
when the sequence is empty it crashes with an out-of-range `IndexError`
rather than failing with `NotFoundError`. -/
theorem recentVal_first_or_index_error (c : BBT) (channel resource date : String)
    (x : Json) (rest : List Json) :
    recentValFromRecords (x :: rest) = Except.ok x ∧
    recentValFromRecords [] = Except.error (PyErr.builtin PyExc.IndexError) ∧
    (recentValRequest c channel resource date).map (fun r => (r.uri, r.query)) =
      Except.ok (readEndpoint ++ "/" ++ channel ++ "/" ++ resource,
        [("limit", "1"), ("source", "raw")]) := ⟨rfl, rfl, rfl⟩

/-- C9: serializing a `DataPoint` with `toJSON` and reconstructing with
`fromJSON` preserves the `data` and `ts` fields, while the reconstructed
point has no channel and no resource (they stay at their `None` defaults). -/
theorem datapoint_roundtrip (p : DataPoint) (owner : Option String) :
    DataPoint.fromJSON (p.toJSON owner) =
      Except.ok { channel := none, resource := none, data := p.data, ts := p.ts } := rfl

/-- C10: in the bodies built by `write` and `publish`, a falsy `ts` argument
(omitted, `None`, or zero) is replaced by the current clock reading `now`,
and only a truthy (nonzero) `ts` is transmitted as given. -/
theorem ts_defaults_on_falsy (data : Json) (t now : Int) (src : Option Json) (h : t ≠ 0) :
    (writeBody data none now).lookup "ts" = some (Json.num now) ∧
    (writeBody data (some 0) now).lookup "ts" = some (Json.num now) ∧
    (writeBody data (some t) now).lookup "ts" = some (Json.num t) ∧
    (publishBody data none src now).lookup "ts" = some (Json.num now) ∧
    (publishBody data (some 0) src now).lookup "ts" = some (Json.num now) ∧
    (publishBody data (some t) src now).lookup "ts" = some (Json.num t) := by
  have ht : (t == 0) = false := by simpa using h
  refine ⟨rfl, rfl, ?_, ?_, ?_, ?_⟩
  · simp [writeBody, optIntTruthy, ht, List.lookup]
  · cases hb : optJsonTruthy src <;> simp [publishBody, hb, optIntTruthy, List.lookup]
  · cases hb : optJsonTruthy src <;> simp [publishBody, hb, optIntTruthy, List.lookup]
  · cases hb : optJsonTruthy src <;> simp [publishBody, hb, optIntTruthy, ht, List.lookup]

/-- C10 witness: the statement evaluated at concrete data, timestamps and a
concrete truthy `ts`. -/
theorem ts_defaults_on_falsy_witness :
    (5 : Int) ≠ 0 ∧
    ((writeBody (Json.num 7) none 123).lookup "ts" = some (Json.num 123) ∧
    (writeBody (Json.num 7) (some 0) 123).lookup "ts" = some (Json.num 123) ∧
    (writeBody (Json.num 7) (some 5) 123).lookup "ts" = some (Json.num 5) ∧
    (publishBody (Json.num 7) none none 123).lookup "ts" = some (Json.num 123) ∧
    (publishBody (Json.num 7) (some 0) none 123).lookup "ts" = some (Json.num 123) ∧
    (publishBody (Json.num 7) (some 5) none 123).lookup "ts" = some (Json.num 5)) :=
  ⟨by decide, ts_defaults_on_falsy (Json.num 7) 5 123 none (by decide)⟩
